import Mathlib

/-!
Shallow embedding of the solana-rust-escrow program (src/instruction.rs,
src/error.rs, src/processor.rs, and the escrow record codec of state.rs,
which is referenced by the processor but not present in the source tree and
is therefore modelled from the spec).

Bytes are `Fin 256`; 32-byte public keys and 64-bit balances are `Nat`,
with explicit bounds (`< 2 ^ 256`, `< 2 ^ 64`) where overflow or
serialization width matters.  External collaborators (the SPL token
program, the rent sysvar, the program-derived address computation) are
modelled at their interface boundary: the token-account read is an
`Except ProgramError Nat` input, rent exemption is a host-supplied
predicate, and the derived authority is a `Nat` parameter.
-/

deriving instance DecidableEq for Except

namespace SolanaEscrow

/-- A byte, as on the instruction wire and in account data buffers. -/
abbrev Byte := Fin 256

/-- Little-endian value of a byte list (u64::from_le_bytes and the
fixed-width fields of the record codec read bytes this way). -/
def natFromLeBytes : List Byte → Nat
  | [] => 0
  | b :: bs => b.val + 256 * natFromLeBytes bs

/-- Little-endian encoding of `k` into `n` bytes (the record codec's
fixed-width field writer). -/
def natToLeBytes : Nat → Nat → List Byte
  | 0, _ => []
  | n + 1, k => ⟨k % 256, Nat.mod_lt _ (by decide)⟩ :: natToLeBytes n (k / 256)

/-- Errors surfaced to the host: the `solana_program::program_error::ProgramError`
variants this program can produce, with `custom` carrying an
`EscrowError as u32` code (src/error.rs `From<EscrowError> for ProgramError`). -/
inductive ProgramError where
  | custom (code : Nat)
  | invalidAccountData
  | missingRequiredSignature
  | incorrectProgramId
  | accountAlreadyInitialized
  | uninitializedAccount
  | notEnoughAccountKeys
deriving DecidableEq, Repr

/-- The program's own error enum (src/error.rs). -/
inductive EscrowError where
  | invalidInstruction
  | notRentExempt
  | expectedAmountMismatch
  | amountOverflow
deriving DecidableEq, Repr

/-- `EscrowError as u32`: discriminant order of the enum in src/error.rs. -/
def EscrowError.code : EscrowError → Nat
  | .invalidInstruction => 0
  | .notRentExempt => 1
  | .expectedAmountMismatch => 2
  | .amountOverflow => 3

/-- `ProgramError::Custom(e as u32)` (src/error.rs, `impl From`). -/
def EscrowError.toProgramError (e : EscrowError) : ProgramError :=
  .custom e.code

/-- The two instructions of src/instruction.rs. -/
inductive EscrowInstruction where
  | initEscrow (amount : Nat)
  | exchange (amount : Nat)
deriving DecidableEq, Repr

/-- `EscrowInstruction::unpack_amount` (src/instruction.rs): take the first
8 bytes of the operand as a little-endian u64; fail with
`InvalidInstruction` when fewer than 8 bytes are present.  `input.get(..8)`
succeeds exactly when the operand holds at least 8 bytes, and the
`try_into` to `[u8; 8]` then always succeeds. -/
def EscrowInstruction.unpack_amount (input : List Byte) : Except ProgramError Nat :=
  if 8 ≤ input.length then
    .ok (natFromLeBytes (input.take 8))
  else
    .error EscrowError.invalidInstruction.toProgramError

/-- `EscrowInstruction::unpack` (src/instruction.rs): split off the tag
byte (`InvalidInstruction` on an empty buffer), dispatch on tag 0 / 1,
any other tag is `InvalidInstruction`. -/
def EscrowInstruction.unpack (input : List Byte) : Except ProgramError EscrowInstruction :=
  match input with
  | [] => .error EscrowError.invalidInstruction.toProgramError
  | tag :: rest =>
    if tag.val = 0 then
      (EscrowInstruction.unpack_amount rest).map .initEscrow
    else if tag.val = 1 then
      (EscrowInstruction.unpack_amount rest).map .exchange
    else
      .error EscrowError.invalidInstruction.toProgramError

/-- The persisted escrow record (the `Escrow` struct of state.rs, whose
field names appear in src/processor.rs). -/
structure Escrow where
  is_initialized : Bool
  initializer_pubkey : Nat
  temp_token_account_pubkey : Nat
  initializer_token_to_receive_account_pubkey : Nat
  expected_amount : Nat
deriving DecidableEq, Repr

/-- Modelled from the spec: state.rs is not in the source tree; §4.2/§6 fix
the codec as a 105-byte layout `initialized-flag(1) | initializer
identity(32) | custody identity(32) | receiving identity(32) | expected
amount little-endian u64(8)` with no padding.  `Escrow::pack`. -/
def Escrow.pack (e : Escrow) : List Byte :=
  natToLeBytes 1 (if e.is_initialized then 1 else 0) ++
    natToLeBytes 32 e.initializer_pubkey ++
    natToLeBytes 32 e.temp_token_account_pubkey ++
    natToLeBytes 32 e.initializer_token_to_receive_account_pubkey ++
    natToLeBytes 8 e.expected_amount

/-- Modelled from the spec: state.rs is not in the source tree; §4.2 says
the unchecked decode validates only shape (a buffer of the wrong width
fails with the generic unpack error, `InvalidAccountData`) and tolerates an
all-zero buffer, reading it as an uninitialized record.
`Escrow::unpack_unchecked`. -/
def Escrow.unpack_unchecked (src : List Byte) : Except ProgramError Escrow :=
  if src.length = 105 then
    .ok
      { is_initialized := natFromLeBytes (src.take 1) != 0
        initializer_pubkey := natFromLeBytes ((src.drop 1).take 32)
        temp_token_account_pubkey := natFromLeBytes ((src.drop 33).take 32)
        initializer_token_to_receive_account_pubkey := natFromLeBytes ((src.drop 65).take 32)
        expected_amount := natFromLeBytes ((src.drop 97).take 8) }
  else
    .error .invalidAccountData

/-- `Escrow::unpack`: the checked decode of the `Pack` trait — the
unchecked decode followed by rejection of a record whose
`is_initialized` flag is clear (`UninitializedAccount`). -/
def Escrow.unpack (src : List Byte) : Except ProgramError Escrow :=
  match Escrow.unpack_unchecked src with
  | .error e => .error e
  | .ok e => if e.is_initialized then .ok e else .error .uninitializedAccount

/-- One host account as the processor sees it: identity, owning program,
balance in lamports, data buffer, and the signer flag. -/
structure AccountInfo where
  key : Nat
  owner : Nat
  lamports : Nat
  data : List Byte
  is_signer : Bool
deriving DecidableEq, Repr

/-- A request issued to the external token-custody collaborator
(`spl_token::instruction::{set_authority, transfer, close_account}`). -/
inductive Request where
  | setAuthority (account newAuthority currentAuthority : Nat)
  | transfer (source destination : Nat) (amount : Nat) (authority : Nat)
  | closeAccount (account refundTarget authority : Nat)
deriving DecidableEq, Repr

/-- Outcome of one processor transition: the returned error (if any), the
collaborator requests issued before returning, and the post-state of the
account list (writes the program performed before returning; the host
rolls them back when `error` is set). -/
structure ProcessResult where
  error : Option ProgramError
  requests : List Request
  accounts : List AccountInfo
deriving DecidableEq, Repr

/-- The identity of the SPL token program (`spl_token::id()`), an opaque
distinguished key. -/
def spl_token_id : Nat := 1461501637330902918203684832716283019655932542976

/-- `u64::checked_add`: `none` exactly when the mathematical sum leaves
the unsigned 64-bit range. -/
def checkedAddU64 (a b : Nat) : Option Nat :=
  if a + b < 2 ^ 64 then some (a + b) else none

namespace Processor

/-- `Processor::process_init_escrow` (src/processor.rs).  Account pops and
checks in source order: pop initializer and require its signature, pop the
temporary token account, pop the token-to-receive account and require its
owner to be the token program, pop the escrow account, pop the rent sysvar
(whose parse result the host supplies as `rentRes`, a rent-exemption
predicate over lamports and data length), require rent exemption, decode
the escrow data with the unchecked codec and reject an already-initialized
record, then write the populated record and issue the `set_authority`
request reassigning the temporary token account to the derived authority
`pda` (computed by the host from the static seed, `find_program_address`). -/
def process_init_escrow (rentRes : Except ProgramError (Nat → Nat → Bool)) (pda : Nat)
    (accounts : List AccountInfo) (amount : Nat) : ProcessResult :=
  match accounts with
  | [] => ⟨some .notEnoughAccountKeys, [], accounts⟩
  | a0 :: t1 =>
    if a0.is_signer then
      match t1 with
      | [] => ⟨some .notEnoughAccountKeys, [], accounts⟩
      | a1 :: t2 =>
        match t2 with
        | [] => ⟨some .notEnoughAccountKeys, [], accounts⟩
        | a2 :: t3 =>
          if a2.owner = spl_token_id then
            match t3 with
            | [] => ⟨some .notEnoughAccountKeys, [], accounts⟩
            | a3 :: t4 =>
              match t4 with
              | [] => ⟨some .notEnoughAccountKeys, [], accounts⟩
              | a4 :: t5 =>
                match rentRes with
                | .error e => ⟨some e, [], accounts⟩
                | .ok isExempt =>
                  if isExempt a3.lamports a3.data.length then
                    match Escrow.unpack_unchecked a3.data with
                    | .error e => ⟨some e, [], accounts⟩
                    | .ok escrow_info =>
                      if escrow_info.is_initialized then
                        ⟨some .accountAlreadyInitialized, [], accounts⟩
                      else
                        let newData := Escrow.pack
                          { is_initialized := true
                            initializer_pubkey := a0.key
                            temp_token_account_pubkey := a1.key
                            initializer_token_to_receive_account_pubkey := a2.key
                            expected_amount := amount }
                        match t5 with
                        | [] =>
                          ⟨some .notEnoughAccountKeys, [],
                            a0 :: a1 :: a2 :: { a3 with data := newData } :: a4 :: t5⟩
                        | _token_program :: _ =>
                          ⟨none, [.setAuthority a1.key pda a0.key],
                            a0 :: a1 :: a2 :: { a3 with data := newData } :: a4 :: t5⟩
                  else
                    ⟨some EscrowError.notRentExempt.toProgramError, [], accounts⟩
          else
            ⟨some .incorrectProgramId, [], accounts⟩
    else
      ⟨some .missingRequiredSignature, [], accounts⟩

/-- `Processor::process_exchange` (src/processor.rs).  Account pops and
checks in source order: pop the taker and require its signature, pop the
taker's sending and receiving token accounts, pop the custody (pda's
temporary) token account and read its token balance through the external
collaborator (`TokenAccount::unpack`, supplied as `custodyRead`), require
the balance to equal `amount_expected_by_taker`, pop the initializer's
main and token-to-receive accounts and the escrow account, decode the
escrow record with the checked codec, require the three recorded
identities to match the supplied accounts, then issue the two transfers
and the close request, credit the escrow account's lamports to the
initializer's main account with `checked_add` (`AmountOverflow` on
overflow), zero the escrow account's lamports and erase its data. -/
def process_exchange (custodyRead : Except ProgramError Nat) (pda : Nat)
    (accounts : List AccountInfo) (amount_expected_by_taker : Nat) : ProcessResult :=
  match accounts with
  | [] => ⟨some .notEnoughAccountKeys, [], accounts⟩
  | b0 :: t1 =>
    if b0.is_signer then
      match t1 with
      | [] => ⟨some .notEnoughAccountKeys, [], accounts⟩
      | b1 :: t2 =>
        match t2 with
        | [] => ⟨some .notEnoughAccountKeys, [], accounts⟩
        | b2 :: t3 =>
          match t3 with
          | [] => ⟨some .notEnoughAccountKeys, [], accounts⟩
          | b3 :: t4 =>
            match custodyRead with
            | .error e => ⟨some e, [], accounts⟩
            | .ok custodyAmount =>
              if amount_expected_by_taker = custodyAmount then
                match t4 with
                | [] => ⟨some .notEnoughAccountKeys, [], accounts⟩
                | b4 :: t5 =>
                  match t5 with
                  | [] => ⟨some .notEnoughAccountKeys, [], accounts⟩
                  | b5 :: t6 =>
                    match t6 with
                    | [] => ⟨some .notEnoughAccountKeys, [], accounts⟩
                    | b6 :: t7 =>
                      match Escrow.unpack b6.data with
                      | .error e => ⟨some e, [], accounts⟩
                      | .ok escrow_info =>
                        if escrow_info.temp_token_account_pubkey = b3.key then
                          if escrow_info.initializer_pubkey = b4.key then
                            if escrow_info.initializer_token_to_receive_account_pubkey
                                = b5.key then
                              match t7 with
                              | [] => ⟨some .notEnoughAccountKeys, [], accounts⟩
                              | b7 :: t8 =>
                                let req1 := Request.transfer b1.key b5.key
                                  escrow_info.expected_amount b0.key
                                match t8 with
                                | [] => ⟨some .notEnoughAccountKeys, [req1], accounts⟩
                                | b8 :: t9 =>
                                  let req2 := Request.transfer b3.key b2.key
                                    custodyAmount pda
                                  let req3 := Request.closeAccount b3.key b4.key pda
                                  match checkedAddU64 b4.lamports b6.lamports with
                                  | none =>
                                    ⟨some EscrowError.amountOverflow.toProgramError,
                                      [req1, req2, req3], accounts⟩
                                  | some newLamports =>
                                    ⟨none, [req1, req2, req3],
                                      b0 :: b1 :: b2 :: b3 ::
                                        { b4 with lamports := newLamports } :: b5 ::
                                        { b6 with lamports := 0, data := [] } ::
                                        b7 :: b8 :: t9⟩
                            else
                              ⟨some .invalidAccountData, [], accounts⟩
                          else
                            ⟨some .invalidAccountData, [], accounts⟩
                        else
                          ⟨some .invalidAccountData, [], accounts⟩
              else
                ⟨some EscrowError.expectedAmountMismatch.toProgramError, [], accounts⟩
    else
      ⟨some .missingRequiredSignature, [], accounts⟩

/-- `Processor::process` (src/processor.rs): decode the instruction bytes
and route to exactly one of the two transitions. -/
def process (rentRes : Except ProgramError (Nat → Nat → Bool))
    (custodyRead : Except ProgramError Nat) (pda : Nat)
    (accounts : List AccountInfo) (instruction_data : List Byte) : ProcessResult :=
  match EscrowInstruction.unpack instruction_data with
  | .error e => ⟨some e, [], accounts⟩
  | .ok (.initEscrow amount) => process_init_escrow rentRes pda accounts amount
  | .ok (.exchange amount) => process_exchange custodyRead pda accounts amount

end Processor

/-- The parts of a transition outcome the program determines: the error,
the issued requests, and every account field except the host-owned
`owner` field (which the program never writes). -/
def ProcessResult.observable (r : ProcessResult) :
    Option ProgramError × List Request × List (Nat × Nat × List Byte × Bool) :=
  (r.error, r.requests, r.accounts.map fun a => (a.key, a.lamports, a.data, a.is_signer))

theorem natToLeBytes_length (n k : Nat) : (natToLeBytes n k).length = n := by
  induction n generalizing k with
  | zero => rfl
  | succ n ih => simp [natToLeBytes, ih]

theorem natFromLeBytes_natToLeBytes (n k : Nat) :
    natFromLeBytes (natToLeBytes n k) = k % 256 ^ n := by
  induction n generalizing k with
  | zero => simp [natToLeBytes, natFromLeBytes, Nat.mod_one]
  | succ n ih =>
    rw [natToLeBytes, natFromLeBytes, ih, pow_succ, mul_comm (256 ^ n) 256, Nat.mod_mul]

theorem natFromLeBytes_natToLeBytes_of_lt {n k : Nat} (h : k < 256 ^ n) :
    natFromLeBytes (natToLeBytes n k) = k := by
  rw [natFromLeBytes_natToLeBytes, Nat.mod_eq_of_lt h]

theorem pow_256_32 : (256 : Nat) ^ 32 = 2 ^ 256 := by norm_num

theorem pow_256_8 : (256 : Nat) ^ 8 = 2 ^ 64 := by norm_num

theorem Escrow.pack_length (e : Escrow) : (Escrow.pack e).length = 105 := by
  simp [Escrow.pack, natToLeBytes_length]

/-- Round trip of the escrow record codec: the unchecked decode of a packed
record recovers the record, for in-range field values (32-byte keys,
64-bit amount). -/
theorem Escrow.unpack_unchecked_pack (e : Escrow)
    (h1 : e.initializer_pubkey < 2 ^ 256)
    (h2 : e.temp_token_account_pubkey < 2 ^ 256)
    (h3 : e.initializer_token_to_receive_account_pubkey < 2 ^ 256)
    (h4 : e.expected_amount < 2 ^ 64) :
    Escrow.unpack_unchecked (Escrow.pack e) = .ok e := by
  obtain ⟨flag, k1, k2, k3, amt⟩ := e
  simp only at h1 h2 h3 h4
  have h1' : k1 < 256 ^ 32 := by rw [pow_256_32]; exact h1
  have h2' : k2 < 256 ^ 32 := by rw [pow_256_32]; exact h2
  have h3' : k3 < 256 ^ 32 := by rw [pow_256_32]; exact h3
  have h4' : amt < 256 ^ 8 := by rw [pow_256_8]; exact h4
  have hA : (natToLeBytes 1 (if flag then 1 else 0)).length = 1 := natToLeBytes_length _ _
  have hB : (natToLeBytes 32 k1).length = 32 := natToLeBytes_length _ _
  have hC : (natToLeBytes 32 k2).length = 32 := natToLeBytes_length _ _
  have hD : (natToLeBytes 32 k3).length = 32 := natToLeBytes_length _ _
  have hE : (natToLeBytes 8 amt).length = 8 := natToLeBytes_length _ _
  have hpk : Escrow.pack ⟨flag, k1, k2, k3, amt⟩ =
      natToLeBytes 1 (if flag then 1 else 0) ++ natToLeBytes 32 k1 ++ natToLeBytes 32 k2 ++
        natToLeBytes 32 k3 ++ natToLeBytes 8 amt := rfl
  have f1 : (Escrow.pack ⟨flag, k1, k2, k3, amt⟩).take 1 =
      natToLeBytes 1 (if flag then 1 else 0) := by
    rw [hpk]
    simp only [List.append_assoc]
    exact List.take_left' hA
  have f2 : (Escrow.pack ⟨flag, k1, k2, k3, amt⟩).drop 1 =
      natToLeBytes 32 k1 ++ (natToLeBytes 32 k2 ++ (natToLeBytes 32 k3 ++
        natToLeBytes 8 amt)) := by
    rw [hpk]
    simp only [List.append_assoc]
    exact List.drop_left' hA
  have f3 : (Escrow.pack ⟨flag, k1, k2, k3, amt⟩).drop 33 =
      natToLeBytes 32 k2 ++ (natToLeBytes 32 k3 ++ natToLeBytes 8 amt) := by
    rw [hpk]
    have hre : natToLeBytes 1 (if flag then 1 else 0) ++ natToLeBytes 32 k1 ++
        natToLeBytes 32 k2 ++ natToLeBytes 32 k3 ++ natToLeBytes 8 amt =
        (natToLeBytes 1 (if flag then 1 else 0) ++ natToLeBytes 32 k1) ++
          (natToLeBytes 32 k2 ++ (natToLeBytes 32 k3 ++ natToLeBytes 8 amt)) := by
      simp [List.append_assoc]
    rw [hre]
    exact List.drop_left' (by simp [hA, hB])
  have f4 : (Escrow.pack ⟨flag, k1, k2, k3, amt⟩).drop 65 =
      natToLeBytes 32 k3 ++ natToLeBytes 8 amt := by
    rw [hpk]
    have hre : natToLeBytes 1 (if flag then 1 else 0) ++ natToLeBytes 32 k1 ++
        natToLeBytes 32 k2 ++ natToLeBytes 32 k3 ++ natToLeBytes 8 amt =
        (natToLeBytes 1 (if flag then 1 else 0) ++ natToLeBytes 32 k1 ++
          natToLeBytes 32 k2) ++ (natToLeBytes 32 k3 ++ natToLeBytes 8 amt) := by
      simp [List.append_assoc]
    rw [hre]
    exact List.drop_left' (by simp [hA, hB, hC])
  have f5 : (Escrow.pack ⟨flag, k1, k2, k3, amt⟩).drop 97 = natToLeBytes 8 amt := by
    rw [hpk]
    have hre : natToLeBytes 1 (if flag then 1 else 0) ++ natToLeBytes 32 k1 ++
        natToLeBytes 32 k2 ++ natToLeBytes 32 k3 ++ natToLeBytes 8 amt =
        (natToLeBytes 1 (if flag then 1 else 0) ++ natToLeBytes 32 k1 ++
          natToLeBytes 32 k2 ++ natToLeBytes 32 k3) ++ natToLeBytes 8 amt := by
      simp [List.append_assoc]
    rw [hre]
    exact List.drop_left' (by simp [hA, hB, hC, hD])
  rw [Escrow.unpack_unchecked, if_pos (Escrow.pack_length _)]
  rw [f1, f2, f3, f4, f5]
  rw [List.take_left' hB, List.take_left' hC, List.take_left' hD]
  rw [natFromLeBytes_natToLeBytes_of_lt h1', natFromLeBytes_natToLeBytes_of_lt h2',
    natFromLeBytes_natToLeBytes_of_lt h3']
  rw [List.take_of_length_le (by omega), natFromLeBytes_natToLeBytes_of_lt h4']
  have hfl : natFromLeBytes (natToLeBytes 1 (if flag then 1 else 0)) =
      (if flag then 1 else 0) :=
    natFromLeBytes_natToLeBytes_of_lt (by cases flag <;> norm_num)
  rw [hfl]
  cases flag <;> simp

/-- Checked decode of a packed record with the flag set. -/
theorem Escrow.unpack_pack (e : Escrow) (hflag : e.is_initialized = true)
    (h1 : e.initializer_pubkey < 2 ^ 256)
    (h2 : e.temp_token_account_pubkey < 2 ^ 256)
    (h3 : e.initializer_token_to_receive_account_pubkey < 2 ^ 256)
    (h4 : e.expected_amount < 2 ^ 64) :
    Escrow.unpack (Escrow.pack e) = .ok e := by
  rw [Escrow.unpack, Escrow.unpack_unchecked_pack e h1 h2 h3 h4]
  simp [hflag]

/-- An amount decode via `Except.map`, case split on the operand length. -/
theorem unpack_amount_map_eq (f : Nat → EscrowInstruction) (rest : List Byte) :
    (EscrowInstruction.unpack_amount rest).map f =
      if 8 ≤ rest.length then .ok (f (natFromLeBytes (rest.take 8)))
      else .error EscrowError.invalidInstruction.toProgramError := by
  rw [EscrowInstruction.unpack_amount]
  by_cases h : 8 ≤ rest.length <;> simp [h, Except.map]

/-- C6: for every byte buffer whose first byte is 0 or 1 and whose operand
(the remaining bytes) splits as 8 bytes `pre` followed by arbitrary bytes
`suf`, decode succeeds, yielding `InitEscrow` for tag 0 and `Exchange` for
tag 1 with the little-endian value of `pre` as the amount; the trailing
bytes `suf` do not affect the result. -/
theorem unpack_valid_tag_decodes_le_amount (tag : Byte) (pre suf : List Byte)
    (htag : tag.val = 0 ∨ tag.val = 1) (hpre : pre.length = 8) :
    EscrowInstruction.unpack (tag :: (pre ++ suf)) =
      .ok (if tag.val = 0 then .initEscrow (natFromLeBytes pre)
        else .exchange (natFromLeBytes pre)) := by
  have hlen : 8 ≤ (pre ++ suf).length := by simp [hpre]
  have htake : (pre ++ suf).take 8 = pre := List.take_left' hpre
  rcases htag with h | h
  · simp [EscrowInstruction.unpack, h, unpack_amount_map_eq, hlen, htake, hpre]
  · have h0 : ¬tag.val = 0 := by omega
    simp [EscrowInstruction.unpack, h, h0, unpack_amount_map_eq, hlen, htake, hpre]

/-- C6 witness: buffer tag 0, operand bytes 1000 in little endian followed
by a trailing byte, decodes to `InitEscrow {amount := 1000}`. -/
theorem unpack_valid_tag_decodes_le_amount_witness :
    EscrowInstruction.unpack ((0 : Byte) :: ([0xE8, 0x03, 0, 0, 0, 0, 0, 0] ++ [9])) =
      .ok (.initEscrow 1000) := by
  have h := unpack_valid_tag_decodes_le_amount 0 [0xE8, 0x03, 0, 0, 0, 0, 0, 0] [9]
    (Or.inl rfl) rfl
  simpa using h

/-- C7 counterexample: a buffer with valid tag 0 and a 9-byte operand — one
byte more than 8 — decodes successfully to `InitEscrow {amount := 1}`
instead of failing with `InvalidInstruction` as the claim states. -/
theorem unpack_long_operand_succeeds_counterexample :
    ([1, 0, 0, 0, 0, 0, 0, 0, 5] : List Byte).length = 9 ∧
      EscrowInstruction.unpack ((0 : Byte) :: [1, 0, 0, 0, 0, 0, 0, 0, 5]) =
        .ok (.initEscrow 1) ∧
      EscrowInstruction.unpack ((0 : Byte) :: [1, 0, 0, 0, 0, 0, 0, 0, 5]) ≠
        .error EscrowError.invalidInstruction.toProgramError := by
  refine ⟨rfl, by decide, by decide⟩

/-- C7 amended: for every byte buffer with a valid tag (0 or 1),
instruction decode fails with `InvalidInstruction` exactly when the
operand is shorter than 8 bytes; an operand of 8 or more bytes decodes
successfully, using only its first 8 bytes. -/
theorem unpack_invalid_iff_operand_short (tag : Byte) (rest : List Byte)
    (htag : tag.val = 0 ∨ tag.val = 1) :
    (EscrowInstruction.unpack (tag :: rest) =
        .error EscrowError.invalidInstruction.toProgramError) ↔
      rest.length < 8 := by
  rcases htag with h | h
  · by_cases hl : 8 ≤ rest.length
    · simp only [EscrowInstruction.unpack, h, unpack_amount_map_eq, if_pos hl,
        if_pos rfl]
      constructor
      · intro hbad; exact absurd hbad (by simp)
      · omega
    · simp only [EscrowInstruction.unpack, h, unpack_amount_map_eq, if_neg hl,
        if_pos rfl]
      constructor
      · intro _; omega
      · intro _; rfl
  · have h0 : ¬tag.val = 0 := by omega
    by_cases hl : 8 ≤ rest.length
    · simp only [EscrowInstruction.unpack, h, h0, unpack_amount_map_eq, if_pos hl,
        if_neg h0, if_pos rfl]
      constructor
      · intro hbad; exact absurd hbad (by simp)
      · omega
    · simp only [EscrowInstruction.unpack, h, h0, unpack_amount_map_eq, if_neg hl,
        if_neg h0, if_pos rfl]
      constructor
      · intro _; omega
      · intro _; rfl

/-- C7 amended witness: tag 1 with a 3-byte operand fails with
`InvalidInstruction`. -/
theorem unpack_invalid_iff_operand_short_witness :
    EscrowInstruction.unpack ((1 : Byte) :: [7, 7, 7]) =
      .error EscrowError.invalidInstruction.toProgramError :=
  (unpack_invalid_iff_operand_short 1 [7, 7, 7] (Or.inr rfl)).mpr (by decide)

/-- C8: decode fails with `InvalidInstruction` on the empty buffer, on any
buffer whose first byte is neither 0 nor 1, and on any buffer whose
operand (the bytes after the first) is shorter than 8 bytes. -/
theorem unpack_malformed_fails :
    (EscrowInstruction.unpack [] = .error EscrowError.invalidInstruction.toProgramError) ∧
      (∀ (tag : Byte) (rest : List Byte), tag.val ≠ 0 → tag.val ≠ 1 →
        EscrowInstruction.unpack (tag :: rest) =
          .error EscrowError.invalidInstruction.toProgramError) ∧
      (∀ (tag : Byte) (rest : List Byte), rest.length < 8 →
        EscrowInstruction.unpack (tag :: rest) =
          .error EscrowError.invalidInstruction.toProgramError) := by
  refine ⟨rfl, ?_, ?_⟩
  · intro tag rest h0 h1
    simp [EscrowInstruction.unpack, h0, h1]
  · intro tag rest hl
    have hl' : ¬8 ≤ rest.length := by omega
    by_cases h0 : tag.val = 0
    · simp [EscrowInstruction.unpack, h0, unpack_amount_map_eq, hl']
    · by_cases h1 : tag.val = 1 <;>
        simp [EscrowInstruction.unpack, h0, h1, unpack_amount_map_eq, hl']

/-- C8 witness: an unknown tag 2 with a full 8-byte operand fails with
`InvalidInstruction`. -/
theorem unpack_malformed_fails_witness :
    EscrowInstruction.unpack ((2 : Byte) :: [1, 0, 0, 0, 0, 0, 0, 0]) =
      .error EscrowError.invalidInstruction.toProgramError :=
  unpack_malformed_fails.2.1 2 [1, 0, 0, 0, 0, 0, 0, 0] (by decide) (by decide)

/-- C2: in every Exchange call where the taker signed but the custody
account's token balance read from the collaborator differs from the
taker's instruction amount, the transition fails with
`ExpectedAmountMismatch` (Custom 2), issues zero collaborator requests,
and leaves every account — the escrow record included — unchanged. -/
theorem exchange_amount_mismatch_rejected (pda custodyAmount amount : Nat)
    (b0 b1 b2 b3 : AccountInfo) (rest : List AccountInfo)
    (hsig : b0.is_signer = true) (hne : amount ≠ custodyAmount) :
    Processor.process_exchange (.ok custodyAmount) pda (b0 :: b1 :: b2 :: b3 :: rest)
        amount =
      ⟨some EscrowError.expectedAmountMismatch.toProgramError, [],
        b0 :: b1 :: b2 :: b3 :: rest⟩ := by
  simp [Processor.process_exchange, hsig, hne]

/-- C2 witness: Scenario D — custody balance 500, taker claims 400; the
call fails with `ExpectedAmountMismatch`, no requests, accounts
unchanged. -/
theorem exchange_amount_mismatch_rejected_witness :
    Processor.process_exchange (.ok 500) 77
        (⟨1, 0, 10, [], true⟩ :: ⟨2, 0, 0, [], false⟩ :: ⟨3, 0, 0, [], false⟩ ::
          ⟨4, 0, 0, [], false⟩ :: []) 400 =
      ⟨some EscrowError.expectedAmountMismatch.toProgramError, [],
        ⟨1, 0, 10, [], true⟩ :: ⟨2, 0, 0, [], false⟩ :: ⟨3, 0, 0, [], false⟩ ::
          ⟨4, 0, 0, [], false⟩ :: []⟩ :=
  exchange_amount_mismatch_rejected 77 500 400 _ _ _ _ [] rfl (by decide)

/-- C9: the amount comparison runs before the escrow record is decoded and
before any identity check: when the taker signed and the custody balance
differs from the taker's amount, the returned error is
`ExpectedAmountMismatch` even when the escrow record's recorded identities
also fail to match the supplied accounts. -/
theorem exchange_amount_check_precedes_identity_checks
    (pda custodyAmount amount : Nat) (b0 b1 b2 b3 b4 b5 b6 : AccountInfo)
    (rest : List AccountInfo) (info : Escrow)
    (hsig : b0.is_signer = true) (hne : amount ≠ custodyAmount)
    (_hrec : Escrow.unpack b6.data = .ok info)
    (_hmismatch : info.temp_token_account_pubkey ≠ b3.key ∨
      info.initializer_pubkey ≠ b4.key ∨
      info.initializer_token_to_receive_account_pubkey ≠ b5.key) :
    Processor.process_exchange (.ok custodyAmount) pda
        (b0 :: b1 :: b2 :: b3 :: b4 :: b5 :: b6 :: rest) amount =
      ⟨some EscrowError.expectedAmountMismatch.toProgramError, [],
        b0 :: b1 :: b2 :: b3 :: b4 :: b5 :: b6 :: rest⟩ := by
  simp [Processor.process_exchange, hsig, hne]

/-- C9 witness: balance 500 vs claimed 400 with an escrow record whose
recorded identities all differ from the supplied accounts; the error is
still `ExpectedAmountMismatch`. -/
theorem exchange_amount_check_precedes_identity_checks_witness :
    Processor.process_exchange (.ok 500) 77
        (⟨1, 0, 10, [], true⟩ :: ⟨2, 0, 0, [], false⟩ :: ⟨3, 0, 0, [], false⟩ ::
          ⟨4, 0, 0, [], false⟩ :: ⟨5, 0, 0, [], false⟩ :: ⟨6, 0, 0, [], false⟩ ::
          ⟨7, 0, 0, Escrow.pack ⟨true, 100, 200, 300, 42⟩, false⟩ :: []) 400 =
      ⟨some EscrowError.expectedAmountMismatch.toProgramError, [],
        ⟨1, 0, 10, [], true⟩ :: ⟨2, 0, 0, [], false⟩ :: ⟨3, 0, 0, [], false⟩ ::
          ⟨4, 0, 0, [], false⟩ :: ⟨5, 0, 0, [], false⟩ :: ⟨6, 0, 0, [], false⟩ ::
          ⟨7, 0, 0, Escrow.pack ⟨true, 100, 200, 300, 42⟩, false⟩ :: []⟩ :=
  exchange_amount_check_precedes_identity_checks 77 500 400 _ _ _ _ _ _ _ []
    ⟨true, 100, 200, 300, 42⟩ rfl (by decide)
    (Escrow.unpack_pack _ rfl (by norm_num) (by norm_num) (by norm_num) (by norm_num))
    (Or.inl (by decide))

/-- C1: in every Exchange call that passes the signer and amount checks
and whose escrow record decodes, the call fails with `InvalidAccountData`
exactly when the record's recorded custody identity, initializer identity,
or receiving-account identity differs from the corresponding supplied
account's key; it proceeds past this validation only when all three
match. -/
theorem exchange_identity_validation (pda custodyAmount : Nat)
    (b0 b1 b2 b3 b4 b5 b6 : AccountInfo) (rest : List AccountInfo) (info : Escrow)
    (hsig : b0.is_signer = true)
    (hrec : Escrow.unpack b6.data = .ok info) :
    (Processor.process_exchange (.ok custodyAmount) pda
          (b0 :: b1 :: b2 :: b3 :: b4 :: b5 :: b6 :: rest) custodyAmount).error =
        some ProgramError.invalidAccountData ↔
      ¬(info.temp_token_account_pubkey = b3.key ∧
        info.initializer_pubkey = b4.key ∧
        info.initializer_token_to_receive_account_pubkey = b5.key) := by
  by_cases h1 : info.temp_token_account_pubkey = b3.key
  · by_cases h2 : info.initializer_pubkey = b4.key
    · by_cases h3 : info.initializer_token_to_receive_account_pubkey = b5.key
      · rcases rest with _ | ⟨b7, _ | ⟨b8, t9⟩⟩
        · simp [Processor.process_exchange, hsig, hrec, h1, h2, h3]
        · simp [Processor.process_exchange, hsig, hrec, h1, h2, h3]
        · simp [Processor.process_exchange, hsig, hrec, h1, h2, h3, checkedAddU64]
          split_ifs <;> simp [EscrowError.toProgramError, EscrowError.code]
      · simp [Processor.process_exchange, hsig, hrec, h1, h2, h3]
    · simp [Processor.process_exchange, hsig, hrec, h1, h2]
  · simp [Processor.process_exchange, hsig, hrec, h1]

/-- C1 witness: signer and amount checks pass, the record's custody
identity (200) differs from the supplied custody account's key (3); the
call fails with `InvalidAccountData`. -/
theorem exchange_identity_validation_witness :
    (Processor.process_exchange (.ok 500) 77
          (⟨1, 0, 10, [], true⟩ :: ⟨2, 0, 0, [], false⟩ :: ⟨3, 0, 0, [], false⟩ ::
            ⟨4, 0, 0, [], false⟩ :: ⟨5, 0, 0, [], false⟩ :: ⟨6, 0, 0, [], false⟩ ::
            ⟨7, 0, 0, Escrow.pack ⟨true, 100, 200, 300, 42⟩, false⟩ :: []) 500).error =
      some ProgramError.invalidAccountData :=
  (exchange_identity_validation 77 500 _ _ _ _ _ _ _ [] ⟨true, 100, 200, 300, 42⟩ rfl
      (Escrow.unpack_pack _ rfl (by norm_num) (by norm_num) (by norm_num)
        (by norm_num))).mpr
    (by decide)

/-- C5: in every Exchange call that reaches the closing step (signer,
amount, record decode and all three identity checks passed, full account
list supplied), the escrow account's lamports are added to the
initializer's main-account lamports with a checked addition: the call
fails with `AmountOverflow` exactly when the sum leaves the unsigned
64-bit range, and on success the initializer's balance is the sum, the
escrow account's balance is zero and its data erased. -/
theorem exchange_closing_credit_and_clear (pda custodyAmount : Nat)
    (b0 b1 b2 b3 b4 b5 b6 b7 b8 : AccountInfo) (t9 : List AccountInfo) (info : Escrow)
    (hsig : b0.is_signer = true)
    (hrec : Escrow.unpack b6.data = .ok info)
    (hid1 : info.temp_token_account_pubkey = b3.key)
    (hid2 : info.initializer_pubkey = b4.key)
    (hid3 : info.initializer_token_to_receive_account_pubkey = b5.key) :
    (2 ^ 64 ≤ b4.lamports + b6.lamports →
      Processor.process_exchange (.ok custodyAmount) pda
          (b0 :: b1 :: b2 :: b3 :: b4 :: b5 :: b6 :: b7 :: b8 :: t9) custodyAmount =
        ⟨some EscrowError.amountOverflow.toProgramError,
          [.transfer b1.key b5.key info.expected_amount b0.key,
            .transfer b3.key b2.key custodyAmount pda,
            .closeAccount b3.key b4.key pda],
          b0 :: b1 :: b2 :: b3 :: b4 :: b5 :: b6 :: b7 :: b8 :: t9⟩) ∧
    (b4.lamports + b6.lamports < 2 ^ 64 →
      Processor.process_exchange (.ok custodyAmount) pda
          (b0 :: b1 :: b2 :: b3 :: b4 :: b5 :: b6 :: b7 :: b8 :: t9) custodyAmount =
        ⟨none,
          [.transfer b1.key b5.key info.expected_amount b0.key,
            .transfer b3.key b2.key custodyAmount pda,
            .closeAccount b3.key b4.key pda],
          b0 :: b1 :: b2 :: b3 :: { b4 with lamports := b4.lamports + b6.lamports } ::
            b5 :: { b6 with lamports := 0, data := [] } :: b7 :: b8 :: t9⟩) := by
  have hpow : (2 : Nat) ^ 64 = 18446744073709551616 := by norm_num
  constructor
  · intro hov
    rw [hpow] at hov
    have hov' : ¬b4.lamports + b6.lamports < 18446744073709551616 := by omega
    simp [Processor.process_exchange, hsig, hrec, hid1, hid2, hid3, checkedAddU64, hov']
  · intro hok
    rw [hpow] at hok
    simp [Processor.process_exchange, hsig, hrec, hid1, hid2, hid3, checkedAddU64, hok]

/-- C5 witness: a full matching Exchange whose balances sum inside the
64-bit range; on success the initializer holds the sum, the escrow account
is zeroed and erased, and the three collaborator requests are issued. -/
theorem exchange_closing_credit_and_clear_witness :
    Processor.process_exchange (.ok 500) 77
        (⟨1, 0, 10, [], true⟩ :: ⟨2, 0, 0, [], false⟩ :: ⟨3, 0, 0, [], false⟩ ::
          ⟨200, 0, 0, [], false⟩ :: ⟨100, 0, 30, [], false⟩ :: ⟨300, 0, 0, [], false⟩ ::
          ⟨7, 0, 12, Escrow.pack ⟨true, 100, 200, 300, 42⟩, false⟩ ::
          ⟨8, 0, 0, [], false⟩ :: ⟨9, 0, 0, [], false⟩ :: []) 500 =
      ⟨none,
        [.transfer 2 300 42 1, .transfer 200 3 500 77, .closeAccount 200 100 77],
        ⟨1, 0, 10, [], true⟩ :: ⟨2, 0, 0, [], false⟩ :: ⟨3, 0, 0, [], false⟩ ::
          ⟨200, 0, 0, [], false⟩ :: ⟨100, 0, 42, [], false⟩ :: ⟨300, 0, 0, [], false⟩ ::
          ⟨7, 0, 0, [], false⟩ :: ⟨8, 0, 0, [], false⟩ :: ⟨9, 0, 0, [], false⟩ :: []⟩ := by
  have h := (exchange_closing_credit_and_clear 77 500 ⟨1, 0, 10, [], true⟩
    ⟨2, 0, 0, [], false⟩ ⟨3, 0, 0, [], false⟩ ⟨200, 0, 0, [], false⟩
    ⟨100, 0, 30, [], false⟩ ⟨300, 0, 0, [], false⟩
    ⟨7, 0, 12, Escrow.pack ⟨true, 100, 200, 300, 42⟩, false⟩ ⟨8, 0, 0, [], false⟩
    ⟨9, 0, 0, [], false⟩ [] ⟨true, 100, 200, 300, 42⟩ rfl
    (Escrow.unpack_pack _ rfl (by norm_num) (by norm_num) (by norm_num) (by norm_num))
    rfl rfl rfl).2 (by norm_num)
  simpa using h

/-- C3: in every Init call the validation checks run in source order —
missing signature on account 0, wrong owner on the receiving account
(account 2), rent exemption of the escrow account (account 3),
already-initialized flag of the decoded escrow record — the error of the
first failing check is returned, and no record is written (all accounts
are unchanged) when any of the four checks fails. -/
theorem init_validation_order (isExempt : Nat → Nat → Bool) (pda amount : Nat)
    (a0 a1 a2 a3 a4 : AccountInfo) (rest : List AccountInfo) :
    (a0.is_signer = false →
      Processor.process_init_escrow (.ok isExempt) pda
          (a0 :: a1 :: a2 :: a3 :: a4 :: rest) amount =
        ⟨some ProgramError.missingRequiredSignature, [],
          a0 :: a1 :: a2 :: a3 :: a4 :: rest⟩) ∧
    (a0.is_signer = true → a2.owner ≠ spl_token_id →
      Processor.process_init_escrow (.ok isExempt) pda
          (a0 :: a1 :: a2 :: a3 :: a4 :: rest) amount =
        ⟨some ProgramError.incorrectProgramId, [],
          a0 :: a1 :: a2 :: a3 :: a4 :: rest⟩) ∧
    (a0.is_signer = true → a2.owner = spl_token_id →
      isExempt a3.lamports a3.data.length = false →
      Processor.process_init_escrow (.ok isExempt) pda
          (a0 :: a1 :: a2 :: a3 :: a4 :: rest) amount =
        ⟨some EscrowError.notRentExempt.toProgramError, [],
          a0 :: a1 :: a2 :: a3 :: a4 :: rest⟩) ∧
    (∀ rec : Escrow, a0.is_signer = true → a2.owner = spl_token_id →
      isExempt a3.lamports a3.data.length = true →
      Escrow.unpack_unchecked a3.data = .ok rec → rec.is_initialized = true →
      Processor.process_init_escrow (.ok isExempt) pda
          (a0 :: a1 :: a2 :: a3 :: a4 :: rest) amount =
        ⟨some ProgramError.accountAlreadyInitialized, [],
          a0 :: a1 :: a2 :: a3 :: a4 :: rest⟩) := by
  refine ⟨?_, ?_, ?_, ?_⟩
  · intro h
    simp [Processor.process_init_escrow, h]
  · intro h1 h2
    simp [Processor.process_init_escrow, h1, h2]
  · intro h1 h2 h3
    simp [Processor.process_init_escrow, h1, h2, h3]
  · intro rec h1 h2 h3 h4 h5
    simp [Processor.process_init_escrow, h1, h2, h3, h4, h5]

/-- C3 witness: all earlier checks pass and the escrow record already has
its flag set, so the call fails with `AccountAlreadyInitialized` and
leaves the accounts unchanged. -/
theorem init_validation_order_witness :
    Processor.process_init_escrow (.ok fun _ _ => true) 77
        (⟨1, 0, 0, [], true⟩ :: ⟨2, 0, 0, [], false⟩ ::
          ⟨3, spl_token_id, 0, [], false⟩ ::
          ⟨4, 0, 50, Escrow.pack ⟨true, 0, 0, 0, 0⟩, false⟩ :: ⟨5, 0, 0, [], false⟩ :: [])
        42 =
      ⟨some ProgramError.accountAlreadyInitialized, [],
        ⟨1, 0, 0, [], true⟩ :: ⟨2, 0, 0, [], false⟩ ::
          ⟨3, spl_token_id, 0, [], false⟩ ::
          ⟨4, 0, 50, Escrow.pack ⟨true, 0, 0, 0, 0⟩, false⟩ :: ⟨5, 0, 0, [], false⟩ ::
          []⟩ :=
  (init_validation_order (fun _ _ => true) 77 42 ⟨1, 0, 0, [], true⟩
    ⟨2, 0, 0, [], false⟩ ⟨3, spl_token_id, 0, [], false⟩
    ⟨4, 0, 50, Escrow.pack ⟨true, 0, 0, 0, 0⟩, false⟩ ⟨5, 0, 0, [], false⟩ []).2.2.2
    ⟨true, 0, 0, 0, 0⟩ rfl rfl rfl
    (Escrow.unpack_unchecked_pack _ (by norm_num) (by norm_num) (by norm_num)
      (by norm_num))
    rfl

/-- C4: every Init call that passes all validation checks persists into
the escrow account a record with `is_initialized = true`, the initializer
identity from account 0, the custody-account identity from account 1, the
receiving-account identity from account 2, and `expected_amount` equal to
the instruction amount; decoding the persisted bytes recovers exactly that
record. -/
theorem init_persists_populated_record (isExempt : Nat → Nat → Bool) (pda amount : Nat)
    (a0 a1 a2 a3 a4 a5 : AccountInfo) (rest : List AccountInfo) (rec : Escrow)
    (hsig : a0.is_signer = true) (howner : a2.owner = spl_token_id)
    (hrent : isExempt a3.lamports a3.data.length = true)
    (hdec : Escrow.unpack_unchecked a3.data = .ok rec)
    (hflag : rec.is_initialized = false)
    (hk0 : a0.key < 2 ^ 256) (hk1 : a1.key < 2 ^ 256) (hk2 : a2.key < 2 ^ 256)
    (hamt : amount < 2 ^ 64) :
    Processor.process_init_escrow (.ok isExempt) pda
        (a0 :: a1 :: a2 :: a3 :: a4 :: a5 :: rest) amount =
      ⟨none, [.setAuthority a1.key pda a0.key],
        a0 :: a1 :: a2 ::
          { a3 with data := Escrow.pack ⟨true, a0.key, a1.key, a2.key, amount⟩ } ::
          a4 :: a5 :: rest⟩ ∧
    Escrow.unpack_unchecked (Escrow.pack ⟨true, a0.key, a1.key, a2.key, amount⟩) =
      .ok ⟨true, a0.key, a1.key, a2.key, amount⟩ := by
  constructor
  · simp [Processor.process_init_escrow, hsig, howner, hrent, hdec, hflag]
  · exact Escrow.unpack_unchecked_pack _ hk0 hk1 hk2 hamt

/-- C4 witness: a passing Init call over a zeroed escrow slot persists the
populated record and issues the authority-reassignment request. -/
theorem init_persists_populated_record_witness :
    Processor.process_init_escrow (.ok fun _ _ => true) 77
        (⟨1, 0, 0, [], true⟩ :: ⟨2, 0, 0, [], false⟩ ::
          ⟨3, spl_token_id, 0, [], false⟩ ::
          ⟨4, 0, 50, List.replicate 105 (0 : Byte), false⟩ :: ⟨5, 0, 0, [], false⟩ ::
          ⟨6, 0, 0, [], false⟩ :: []) 42 =
      ⟨none, [.setAuthority 2 77 1],
        ⟨1, 0, 0, [], true⟩ :: ⟨2, 0, 0, [], false⟩ ::
          ⟨3, spl_token_id, 0, [], false⟩ ::
          ⟨4, 0, 50, Escrow.pack ⟨true, 1, 2, 3, 42⟩, false⟩ :: ⟨5, 0, 0, [], false⟩ ::
          ⟨6, 0, 0, [], false⟩ :: []⟩ ∧
    Escrow.unpack_unchecked (Escrow.pack ⟨true, 1, 2, 3, 42⟩) = .ok ⟨true, 1, 2, 3, 42⟩ :=
  init_persists_populated_record (fun _ _ => true) 77 42 ⟨1, 0, 0, [], true⟩
    ⟨2, 0, 0, [], false⟩ ⟨3, spl_token_id, 0, [], false⟩
    ⟨4, 0, 50, List.replicate 105 (0 : Byte), false⟩ ⟨5, 0, 0, [], false⟩
    ⟨6, 0, 0, [], false⟩ [] ⟨false, 0, 0, 0, 0⟩ rfl rfl rfl (by decide) rfl
    (by norm_num) (by norm_num) (by norm_num) (by norm_num)

/-- C10: the Init transition never inspects the custody (temporary token)
account's owning program: two Init calls whose inputs differ only in the
owner field of account 1 produce the same error, the same issued requests,
and the same program-determined account state. -/
theorem init_ignores_custody_account_owner
    (rentRes : Except ProgramError (Nat → Nat → Bool)) (pda amount : Nat)
    (a0 a1 : AccountInfo) (o o' : Nat) (rest : List AccountInfo) :
    (Processor.process_init_escrow rentRes pda
        (a0 :: { a1 with owner := o } :: rest) amount).observable =
      (Processor.process_init_escrow rentRes pda
        (a0 :: { a1 with owner := o' } :: rest) amount).observable := by
  rcases rest with _ | ⟨a2, _ | ⟨a3, _ | ⟨a4, t5⟩⟩⟩ <;>
    cases rentRes <;>
    cases hs : a0.is_signer <;>
    simp only [Processor.process_init_escrow, hs] <;>
    (repeat' split) <;>
    simp_all [ProcessResult.observable]

end SolanaEscrow
